import Mathlib

/-
Verification of the capablanca-api persistence schema (src/api/models.py).

The module delegates FEN handling to the python-chess library: `Board.from_fen`
calls `chess.Board(fen)` and then constructs the Django model from the parsed
fields.  The embedding below therefore models, executably:
  * the FEN parsing done by `chess.Board(fen)` (python-chess `set_fen`,
    `_set_board_fen`, `_set_castling_fen`),
  * the Django `Model.__init__` keyword-argument check that rejects keyword
    arguments naming no declared field,
  * the model classes of models.py themselves (fields, defaults, choices),
  * Python name resolution for the two `__str__` methods that read bare names.
Machine integers do not overflow here (Python ints are unbounded), so clocks
are `Int` and bitboards are `Nat`.
-/

set_option maxRecDepth 4000

namespace Capablanca

/-- Python exceptions that the modelled code can raise. -/
inductive PyErr where
  | valueError (msg : String)
  | typeError (kwarg : String)
  | nameError (name : String)
  deriving DecidableEq

/-- Python runtime values appearing in the modelled code paths. -/
inductive PyVal where
  | str (s : String)
  | int (i : Int)
  | bool (b : Bool)
  | pyNone
  | obj (descr : String)
  deriving DecidableEq

/-- Helper for Python str.split() with no separator: split on whitespace runs,
dropping empty pieces. -/
def wsSplitGo : List Char → List Char → List (List Char)
  | [], acc => if acc.isEmpty then [] else [acc.reverse]
  | c :: rest, acc =>
    if c.isWhitespace then
      if acc.isEmpty then wsSplitGo rest [] else acc.reverse :: wsSplitGo rest []
    else wsSplitGo rest (c :: acc)

/-- Python str.split() with no separator argument. -/
def wsSplit (cs : List Char) : List (List Char) := wsSplitGo cs []

/-- Python str.split(sep) for a single-character separator: keeps empty pieces. -/
def splitOnSep (sep : Char) : List Char → List Char → List (List Char)
  | [], acc => [acc.reverse]
  | c :: rest, acc =>
    if c = sep then acc.reverse :: splitOnSep sep rest []
    else splitOnSep sep rest (c :: acc)

/-- Decimal digit run, as read by Python int(): every character a digit and at
least one of them. -/
def pyDigits (cs : List Char) : Option Nat :=
  if cs.isEmpty then none
  else if cs.all (fun c => c.isDigit) then
    some (cs.foldl (fun a c => 10 * a + (c.toNat - 48)) 0)
  else none

/-- Python int(s) on an already-stripped token: optional sign then decimal
digits (digit-group underscores are not modelled; no parsed FEN token in these
developments uses them). -/
def pyInt : List Char → Option Int
  | '-' :: rest => (pyDigits rest).map (fun n => -(n : Int))
  | '+' :: rest => (pyDigits rest).map (fun n => (n : Int))
  | cs => (pyDigits cs).map (fun n => (n : Int))

/-- python-chess FILE_NAMES. -/
def FILE_NAMES : List String := ["a", "b", "c", "d", "e", "f", "g", "h"]

/-- python-chess RANK_NAMES. -/
def RANK_NAMES : List String := ["1", "2", "3", "4", "5", "6", "7", "8"]

/-- python-chess SQUARE_NAMES: file letter then rank digit, rank-major from a1
to h8 (square index 0 to 63). -/
def SQUARE_NAMES : List String :=
  (RANK_NAMES.map (fun r => FILE_NAMES.map (fun f => f ++ r))).flatten

/-- The lowercase piece letters accepted in a FEN position part. -/
def pieceLetters : List Char := ['p', 'n', 'b', 'r', 'q', 'k']

/-- Scanner for one rank of the FEN position part, following python-chess
BaseBoard._set_board_fen: digits 1..8 advance the field sum (two in a row are
rejected), a tilde must follow a piece, a piece letter adds one file, anything
else is rejected; the rank must describe exactly 8 files.  Returns the rank as
8 optional piece letters. -/
def scanRank : List Char → Nat → Bool → Bool → List (Option Char) →
    Except String (List (Option Char))
  | [], fieldSum, _, _, acc =>
    if fieldSum = 8 then .ok acc.reverse
    else .error "expected 8 columns per row in position part of fen"
  | c :: rest, fieldSum, prevDigit, prevPiece, acc =>
    if '1' ≤ c ∧ c ≤ '8' then
      if prevDigit then .error "two subsequent digits in position part of fen"
      else scanRank rest (fieldSum + (c.toNat - 48)) true false
        (List.replicate (c.toNat - 48) none ++ acc)
    else if c = '~' then
      if prevPiece then scanRank rest fieldSum prevDigit false acc
      else .error "tilde not after piece in position part of fen"
    else if pieceLetters.contains c.toLower then
      scanRank rest (fieldSum + 1) false true (some c :: acc)
    else .error "invalid character in position part of fen"

/-- Scan all ranks of a FEN position part in order (rank 8 first). -/
def scanRanks : List (List Char) → Except String (List (List (Option Char)))
  | [] => .ok []
  | r :: rs =>
    match scanRank r 0 false false [] with
    | .error e => .error e
    | .ok row =>
      match scanRanks rs with
      | .error e => .error e
      | .ok rows => .ok (row :: rows)

/-- python-chess BaseBoard._set_board_fen: split the position part on slashes,
require 8 ranks, and validate each rank. -/
def setBoardFen (cs : List Char) : Except String (List (List (Option Char))) :=
  let rows := splitOnSep '/' cs []
  if rows.length ≠ 8 then .error "expected 8 rows in position part of fen"
  else scanRanks rows

/-- python-chess FEN_CASTLING_REGEX: a dash, or up to two characters from
KQABCDEFGH followed by up to two from kqabcdefgh, matching the whole token. -/
def castlingMatch (cs : List Char) : Bool :=
  cs == ['-'] ||
    (let ups := cs.takeWhile (fun c =>
      (['K', 'Q', 'A', 'B', 'C', 'D', 'E', 'F', 'G', 'H'] : List Char).contains c)
     let lows := cs.drop ups.length
     decide (ups.length ≤ 2) && decide (lows.length ≤ 2) &&
       lows.all (fun c =>
         (['k', 'q', 'a', 'b', 'c', 'd', 'e', 'f', 'g', 'h'] : List Char).contains c))

/-- Piece letter found at a square index (0 = a1, 63 = h8) of a parsed
placement, whose first rank list is rank 8. -/
def pieceAt (placement : List (List (Option Char))) (sq : Nat) : Option Char :=
  match placement.get? (7 - sq / 8) with
  | some row =>
    match row.get? (sq % 8) with
    | some v => v
    | none => none
  | none => none

/-- Bitboard (bit i = square i) of the squares holding the given letter. -/
def piecesBB (placement : List (List (Option Char))) (sym : Char) : Nat :=
  (List.range 64).foldl
    (fun a sq => if pieceAt placement sq = some sym then a ||| (1 <<< sq) else a) 0

/-- python-chess BB_RANK constants: rank r (0-based) as a bitboard. -/
def BB_RANK (r : Nat) : Nat := 255 <<< (8 * r)

/-- python-chess BB_FILE constants: file f (0-based) as a bitboard. -/
def BB_FILE (f : Nat) : Nat :=
  (List.range 8).foldl (fun a r => a ||| (1 <<< (f + 8 * r))) 0

/-- Lowest set bit of a bitboard, python-chess `bb & -bb` (0 when empty). -/
def lowbit (n : Nat) : Nat := n ^^^ (n &&& (n - 1))

/-- python-chess lsb: index of the lowest set bit, -1 on the empty bitboard. -/
def lsbIdx (n : Nat) : Int := if n = 0 then -1 else (Nat.log2 (lowbit n) : Int)

/-- python-chess msb: index of the highest set bit, -1 on the empty bitboard. -/
def msbIdx (n : Nat) : Int := if n = 0 then -1 else (Nat.log2 n : Int)

/-- python-chess BaseBoard.king: square of the highest king of the colour,
none when absent. -/
def kingSq (placement : List (List (Option Char))) (white : Bool) : Option Nat :=
  let m := piecesBB placement (if white then 'K' else 'k')
  if m = 0 then none else some (Nat.log2 m)

/-- One flag of python-chess Board._set_castling_fen: 'q' takes the leftmost
backrank rook left of the king (else file a), 'k' the rightmost rook right of
the king (else file h), and a file letter takes that file on the backrank. -/
def castleFlagBB (placement : List (List (Option Char))) (acc : Nat)
    (flag : Char) : Nat :=
  let white := flag.isUpper
  let f := flag.toLower
  let backrank := if white then BB_RANK 0 else BB_RANK 7
  let rooks := piecesBB placement (if white then 'R' else 'r') &&& backrank
  let king := kingSq placement white
  if f = 'q' then
    match king with
    | some k =>
      if lsbIdx rooks < (k : Int) then acc ||| lowbit rooks
      else acc ||| (BB_FILE 0 &&& backrank)
    | none => acc ||| (BB_FILE 0 &&& backrank)
  else if f = 'k' then
    match king with
    | some k =>
      if (k : Int) < msbIdx rooks then acc ||| (1 <<< Nat.log2 rooks)
      else acc ||| (BB_FILE 7 &&& backrank)
    | none => acc ||| (BB_FILE 7 &&& backrank)
  else acc ||| (BB_FILE (f.toNat - 97) &&& backrank)

/-- python-chess Board._set_castling_fen reduced to its bitboard result; the
regex failure branch is unreachable from set_fen, which has already matched
the token. -/
def setCastlingBB (placement : List (List (Option Char))) (cf : List Char) : Nat :=
  if cf.isEmpty || cf == ['-'] then 0
  else cf.foldl (castleFlagBB placement) 0

/-- State of a `chess.Board` as far as the schema reads it: the parsed
placement, side to move, raw castling token and its bitboard, en-passant
square index, and the two clocks. -/
structure ChessBoard where
  placement : List (List (Option Char))
  turn : Bool
  castlingPart : List Char
  castling_rights : Nat
  ep_square : Option Nat
  halfmove_clock : Int
  fullmove_number : Int
  deriving DecidableEq

/-- Turn token of python-chess set_fen: defaults to White when absent, and
accepts only w or b. -/
def parseTurnPart : List (List Char) → Except String (Bool × List (List Char))
  | [] => .ok (true, [])
  | t :: rest =>
    if t == ['w'] then .ok (true, rest)
    else if t == ['b'] then .ok (false, rest)
    else .error "expected w or b for turn part of fen"

/-- Castling token of python-chess set_fen: defaults to a dash when absent,
and must match the castling regular expression. -/
def parseCastlingPart : List (List Char) →
    Except String (List Char × List (List Char))
  | [] => .ok (['-'], [])
  | p :: rest =>
    if castlingMatch p then .ok (p, rest)
    else .error "invalid castling part in fen"

/-- En-passant token of python-chess set_fen: defaults to none when absent; a
dash is none, otherwise the token must be a square name. -/
def parseEpPart : List (List Char) →
    Except String (Option Nat × List (List Char))
  | [] => .ok (none, [])
  | p :: rest =>
    if p == ['-'] then .ok (none, rest)
    else
      match (SQUARE_NAMES.map String.data).findIdx? (fun n => n == p) with
      | some i => .ok (some i, rest)
      | none => .error "invalid en passant part in fen"

/-- Halfmove-clock token of python-chess set_fen: defaults to 0 when absent;
must be an integer and not negative. -/
def parseHalfmovePart : List (List Char) →
    Except String (Int × List (List Char))
  | [] => .ok (0, [])
  | p :: rest =>
    match pyInt p with
    | none => .error "invalid half-move clock in fen"
    | some n =>
      if n < 0 then .error "halfmove clock cannot be negative"
      else .ok (n, rest)

/-- Fullmove-number token of python-chess set_fen: defaults to 1 when absent;
must be an integer, not negative, and is clamped up to at least 1. -/
def parseFullmovePart : List (List Char) →
    Except String (Int × List (List Char))
  | [] => .ok (1, [])
  | p :: rest =>
    match pyInt p with
    | none => .error "invalid fullmove number in fen"
    | some n =>
      if n < 0 then .error "fullmove number cannot be negative"
      else .ok (max n 1, rest)

/-- python-chess Board.set_fen: pop the board part, then the five scalar
parts with their defaults and validations, reject leftover parts, and only
then validate the board part; on success assemble the board state. -/
def setFen (fen : String) : Except String ChessBoard :=
  match wsSplit fen.data with
  | [] => .error "empty fen"
  | board_part :: rest => do
    let (turn, rest) ← parseTurnPart rest
    let (castling_part, rest) ← parseCastlingPart rest
    let (ep_square, rest) ← parseEpPart rest
    let (halfmove_clock, rest) ← parseHalfmovePart rest
    let (fullmove_number, rest) ← parseFullmovePart rest
    if !rest.isEmpty then .error "fen string has more parts than expected"
    else do
      let placement ← setBoardFen board_part
      .ok { placement := placement, turn := turn,
            castlingPart := castling_part,
            castling_rights := setCastlingBB placement castling_part,
            ep_square := ep_square, halfmove_clock := halfmove_clock,
            fullmove_number := fullmove_number }

/-- chess.Board(fen): the constructor resets for the starting FEN and calls
set_fen otherwise; on the starting FEN the two paths build the same state, so
the model always goes through set_fen. -/
def chessBoardOfFen (fen : String) : Except String ChessBoard := setFen fen

/-- Re-encoding of one rank for Board.fen(): runs of empty squares become a
digit. -/
def rankFenChars : List (Option Char) → Nat → List Char
  | [], 0 => []
  | [], Nat.succ n => [Char.ofNat (49 + n)]
  | Option.none :: rest, n => rankFenChars rest (n + 1)
  | Option.some c :: rest, 0 => c :: rankFenChars rest 0
  | Option.some c :: rest, Nat.succ n => Char.ofNat (49 + n) :: c :: rankFenChars rest 0

/-- Re-encoding of the position part for Board.fen(). -/
def boardFenChars : List (List (Option Char)) → List Char
  | [] => []
  | [r] => rankFenChars r 0
  | r :: rs => rankFenChars r 0 ++ '/' :: boardFenChars rs

/-- chess.Board.fen(): the position, turn, castling, en-passant and clock
fields of the board, space-separated.  The castling and en-passant fields are
re-emitted from the parsed tokens; python-chess canonicalises them further
(X-FEN rook selection, en-passant legality), but `from_fen` raises before the
string value can ever be observed, so the theorems below never depend on it. -/
def ChessBoard.fenOut (b : ChessBoard) : String :=
  String.mk (boardFenChars b.placement) ++ (if b.turn then " w " else " b ") ++
    String.mk b.castlingPart ++ " " ++
    (match b.ep_square with
     | some i => (SQUARE_NAMES.get? i).getD "-"
     | none => "-") ++ " " ++
    toString b.halfmove_clock ++ " " ++ toString b.fullmove_number

/-! Embedding of the model classes of src/api/models.py.  Framework-managed
columns whose values are non-deterministic (auto_now timestamps, random UUID
defaults, auto primary keys) are not carried as record data, but their column
names still take part in the constructor keyword check. -/

/-- Result model: result vocabulary, "White wins". -/
def Result.WHITE_WINS : String := "White wins"

/-- Result model: result vocabulary, "Black wins". -/
def Result.BLACK_WINS : String := "Black wins"

/-- Result model: result vocabulary, "Draw". -/
def Result.DRAW : String := "Draw"

/-- Result model: result vocabulary, "In progress". -/
def Result.IN_PROGRESS : String := "In progress"

/-- Result model: termination vocabulary, "Abandoned". -/
def Result.ABANDONED : String := "Abandoned"

/-- Result model: termination vocabulary, "Adjudication". -/
def Result.ADJUDICATION : String := "Adjudication"

/-- Result model: termination vocabulary, "Death". -/
def Result.DEATH : String := "Death"

/-- Result model: termination vocabulary, "Emergency". -/
def Result.EMERGENCY : String := "Emergency"

/-- Result model: termination vocabulary, "Normal". -/
def Result.NORMAL : String := "Normal"

/-- Result model: termination vocabulary, "Rules infraction". -/
def Result.RULES_INFRACTION : String := "Rules infraction"

/-- Result model: termination vocabulary, "Time forfeit". -/
def Result.TIME_FORFEIT : String := "Time forfeit"

/-- Result model: termination vocabulary, "Unterminated". -/
def Result.UNTERMINATED : String := "Unterminated"

/-- Result.RESULT_CHOICES: the stored value paired with its display text. -/
def Result.RESULT_CHOICES : List (String × String) :=
  [(Result.WHITE_WINS, "White wins"),
   (Result.BLACK_WINS, "Black wins"),
   (Result.DRAW, "Drawn game"),
   (Result.IN_PROGRESS,
    "Game still in progress, game abandoned, or result otherwise unknown")]

/-- Result.TERMINATION_CHOICES: the stored value paired with its display
text. -/
def Result.TERMINATION_CHOICES : List (String × String) :=
  [(Result.ABANDONED, "Abandoned game."),
   (Result.ADJUDICATION, "Result due to third party adjudication process."),
   (Result.DEATH, "One or both players died during the course of this game."),
   (Result.EMERGENCY, "Game concluded due to unforeseen circumstances."),
   (Result.NORMAL, "Game terminated in a normal fashion."),
   (Result.RULES_INFRACTION,
    "Administrative forfeit due to losing player's failure to observe either the Laws of Chess or the event regulations."),
   (Result.TIME_FORFEIT,
    "Loss due to losing player's failure to meet time control requirements."),
   (Result.UNTERMINATED, "Game not terminated.")]

/-- A row of the Result model: two text columns with choice constraints and
defaults. -/
structure ResultRec where
  result : String := Result.IN_PROGRESS
  termination : String := Result.UNTERMINATED
  deriving DecidableEq

/-- Choices validation for a Result row: each column holds one of the declared
choice values. -/
def validResult (r : ResultRec) : Bool :=
  (Result.RESULT_CHOICES.map Prod.fst).contains r.result &&
    (Result.TERMINATION_CHOICES.map Prod.fst).contains r.termination

/-- Board.BLACK_PIECES from models.py: the six lowercase letters. -/
def Board.BLACK_PIECES : List Char := ['q', 'k', 'b', 'n', 'r', 'p']

/-- Board.WHITE_PIECES from models.py: the uppercase of BLACK_PIECES. -/
def Board.WHITE_PIECES : List Char := Board.BLACK_PIECES.map Char.toUpper

/-- Default of the Board.fen column: the canonical starting position. -/
def STARTING_FEN : String :=
  "rnbqkbnr/pppppppp/8/8/8/8/PPPPPPPP/RNBQKBNR w KQkq - 0 1"

/-- A row of the Board model, with the declared defaults.  The turn column is
a nullable integer, castling_xfen and ep_square nullable text; updated_at and
game_uuid are framework-managed and carried only as column names. -/
structure BoardRec where
  fen : String := STARTING_FEN
  turn : Option Int := none
  castling_xfen : Option String := none
  ep_square : Option String := none
  fullmove_number : Int := 1
  halfmove_clock : Int := 0
  deriving DecidableEq

/-- Column names of the Board model, including the implicit primary key and
the framework-managed columns: the set Django Model.__init__ accepts keyword
arguments for. -/
def boardFieldNames : List String :=
  ["id", "fen", "turn", "castling_xfen", "ep_square", "fullmove_number",
   "halfmove_clock", "updated_at", "game_uuid"]

/-- Assignment of one accepted keyword argument to a Board row; values of a
shape Django would not coerce leave the column at its default (no such value
is ever produced on a reachable path, since from_fen raises first). -/
def BoardRec.applyKw (r : BoardRec) (k : String) (v : PyVal) : BoardRec :=
  if k = "fen" then
    { r with fen := match v with | PyVal.str s => s | _ => r.fen }
  else if k = "turn" then
    { r with turn := match v with
             | PyVal.bool b => some (if b then 1 else 0)
             | PyVal.int i => some i
             | _ => r.turn }
  else if k = "castling_xfen" then
    { r with castling_xfen := match v with
             | PyVal.str s => some s
             | _ => r.castling_xfen }
  else if k = "ep_square" then
    { r with ep_square := match v with
             | PyVal.str s => some s
             | _ => r.ep_square }
  else if k = "fullmove_number" then
    { r with fullmove_number := match v with
             | PyVal.int i => i
             | _ => r.fullmove_number }
  else if k = "halfmove_clock" then
    { r with halfmove_clock := match v with
             | PyVal.int i => i
             | _ => r.halfmove_clock }
  else r

/-- Django Model.__init__ on the Board model: a keyword argument naming no
declared column raises TypeError (the first offending keyword, in argument
order); otherwise the named columns are assigned over the defaults. -/
def Board.initFromKwargs (kwargs : List (String × PyVal)) : Except PyErr BoardRec :=
  match kwargs.find? (fun kv => !(boardFieldNames.contains kv.fst)) with
  | some kv => .error (PyErr.typeError kv.fst)
  | none => .ok (kwargs.foldl (fun r kv => r.applyKw kv.fst kv.snd) {})

/-- Board.from_fen from models.py: parse the FEN with chess.Board, read the
six attributes into the board_data dictionary, and construct the model with
them as keyword arguments — including the key castling_rights, which names no
Board column. -/
def Board.from_fen (fen : String) : Except PyErr BoardRec :=
  match chessBoardOfFen fen with
  | .error msg => .error (PyErr.valueError msg)
  | .ok board =>
    Board.initFromKwargs
      [("fen", PyVal.str board.fenOut),
       ("turn", PyVal.bool board.turn),
       ("castling_rights", PyVal.int (board.castling_rights : Int)),
       ("ep_square",
        match board.ep_square with
        | some sq => PyVal.int (sq : Int)
        | none => PyVal.pyNone),
       ("fullmove_number", PyVal.int board.fullmove_number),
       ("halfmove_clock", PyVal.int board.halfmove_clock)]

/-- Spec-side predicate: construction from the given FEN string fails with the
recoverable ParseError of the error taxonomy, realised in this code base as
the ValueError the FEN codec raises to the caller. -/
def failsWithParseError (s : String) : Bool :=
  match Board.from_fen s with
  | .error (PyErr.valueError _) => true
  | _ => false

/-- Piece.PIECE_CHOICES from models.py: the letter stored in piece_type paired
with its display text.  As in the source, the uppercase letters carry the
Black labels and the lowercase letters the White labels. -/
def Piece.PIECE_CHOICES : List (Char × String) :=
  [('P', "Black pawn"),
   ('N', "Black knight"),
   ('B', "Black bishop"),
   ('R', "Black rook"),
   ('Q', "Black queen"),
   ('K', "Black king"),
   ('p', "White pawn"),
   ('n', "White knight"),
   ('b', "White bishop"),
   ('r', "White rook"),
   ('q', "White queen"),
   ('k', "White king")]

/-- Display label PIECE_CHOICES assigns to a piece letter. -/
def pieceChoiceLabel (c : Char) : Option String := Piece.PIECE_CHOICES.lookup c

/-- Colour a piece letter denotes in a FEN position part as python-chess reads
it (Piece.from_symbol / _set_board_fen): uppercase is White. -/
def fenLetterIsWhite (c : Char) : Bool := c.isUpper

/-- Python str.upper() on the ASCII strings used here. -/
def pyUpper (s : String) : String := String.mk (s.data.map Char.toUpper)

/-- The module attributes A1..H8 of python-chess: SQUARES = range(64) unpacked
in the order of SQUARE_NAMES, so getattr(chess, name) looks the uppercased
square name up here. -/
def chessSquareConsts : List (String × Nat) :=
  (SQUARE_NAMES.map pyUpper).zip (List.range 64)

/-- getattr(chess, name) for the square constants; none models the
AttributeError of a miss. -/
def getattrChess (name : String) : Option Nat := chessSquareConsts.lookup name

/-- Piece.SQUARE_CHOICES from models.py: for each square name, the pair of the
chess module constant of its uppercased name and the uppercased name; none if
any getattr were to miss. -/
def Piece.SQUARE_CHOICES : Option (List (Nat × String)) :=
  SQUARE_NAMES.mapM
    (fun i => (getattrChess (pyUpper i)).map (fun sq => (sq, pyUpper i)))

/-- A row of the Piece model: the stored letter, an optional square name, the
captured flag, and the Board foreign key (as a row id). -/
structure PieceRec where
  piece_type : Char
  square : Option String := none
  captured : Bool := false
  board : Nat
  deriving DecidableEq

/-- A row of the Move model: the auto creation timestamp, the Piece foreign
key (as a row id), and the two square texts.  These are all of its declared
columns. -/
structure MoveRec where
  timestamp : Nat
  piece : Nat
  from_square : String
  to_square : String
  deriving DecidableEq

/-- The data a Move row stores, as a plain tuple. -/
def moveData (m : MoveRec) : Nat × Nat × String × String :=
  (m.timestamp, m.piece, m.from_square, m.to_square)

/-- Rebuilding a Move row from the tuple of its stored data. -/
def moveOfData (t : Nat × Nat × String × String) : MoveRec :=
  { timestamp := t.1, piece := t.2.1, from_square := t.2.2.1, to_square := t.2.2.2 }

/-- A row of the Position model: file and rank texts, the auto creation
timestamp, and the Piece foreign key; the random uuid column is
framework-managed. -/
structure PositionRec where
  piece_file : String
  piece_rank : String
  timestamp : Nat
  piece : Nat
  deriving DecidableEq

/-- Claim model: claim_type value for threefold repetition. -/
def Claim.THREEFOLD_REPETITION : String := "tr"

/-- Claim model: claim_type value for the fifty-move rule. -/
def Claim.FIFTY_MOVES : String := "ft"

/-- Claim model: claim_type value for a draw by agreement. -/
def Claim.DRAW : String := "d"

/-- Claim.CLAIM_CHOICES from models.py: the stored value paired with its
display text. -/
def Claim.CLAIM_CHOICES : List (String × String) :=
  [(Claim.THREEFOLD_REPETITION, "Threefold repetition"),
   (Claim.FIFTY_MOVES, "Fifty moves"),
   (Claim.DRAW, "Draw")]

/-- A row of the Claim model: the single choice-constrained text column. -/
structure ClaimRec where
  claim_type : String
  deriving DecidableEq

/-- Choices validation for a Claim row. -/
def validClaim (c : ClaimRec) : Bool :=
  (Claim.CLAIM_CHOICES.map Prod.fst).contains c.claim_type

/-- The names bound at module level in models.py when the methods run: the
three imports, the Django imports, and the model classes.  No builtin is
named from_square, to_square, piece_file or piece_rank, so builtins need no
entries of their own. -/
def moduleScope : List (String × PyVal) :=
  [("chess", PyVal.obj "module"),
   ("uuid", PyVal.obj "module"),
   ("random", PyVal.obj "module"),
   ("Model", PyVal.obj "class"),
   ("IntegerField", PyVal.obj "class"),
   ("CharField", PyVal.obj "class"),
   ("TextField", PyVal.obj "class"),
   ("DateTimeField", PyVal.obj "class"),
   ("BooleanField", PyVal.obj "class"),
   ("UUIDField", PyVal.obj "class"),
   ("OneToOneField", PyVal.obj "class"),
   ("ForeignKey", PyVal.obj "class"),
   ("CASCADE", PyVal.obj "function"),
   ("settings", PyVal.obj "object"),
   ("Elo", PyVal.obj "class"),
   ("Result", PyVal.obj "class"),
   ("Board", PyVal.obj "class"),
   ("Piece", PyVal.obj "class"),
   ("Game", PyVal.obj "class"),
   ("Move", PyVal.obj "class"),
   ("Position", PyVal.obj "class"),
   ("Claim", PyVal.obj "class"),
   ("ClaimItem", PyVal.obj "class")]

/-- Python name resolution inside a method body: the local scope, then the
module scope, else NameError. -/
def nameLookup (locals : List (String × PyVal)) (n : String) : Except PyErr PyVal :=
  match locals.lookup n with
  | some v => .ok v
  | none =>
    match moduleScope.lookup n with
    | some v => .ok v
    | none => .error (PyErr.nameError n)

/-- str() conversion of a value inside an f-string. -/
def pyFormat : PyVal → String
  | PyVal.str s => s
  | PyVal.int i => toString i
  | PyVal.bool b => if b then "True" else "False"
  | PyVal.pyNone => "None"
  | PyVal.obj d => d

/-- Move.__str__ from models.py: the f-string reads the bare names from_square
and to_square (not self.from_square / self.to_square), so each is resolved
against the local scope, which binds only self, and then the module scope. -/
def Move.strMethod (_self : MoveRec) : Except PyErr String :=
  match nameLookup [("self", PyVal.obj "Move instance")] "from_square" with
  | .error e => .error e
  | .ok v1 =>
    match nameLookup [("self", PyVal.obj "Move instance")] "to_square" with
    | .error e => .error e
    | .ok v2 => .ok (pyFormat v1 ++ pyFormat v2)

/-- Position.__str__ from models.py: the f-string reads the bare names
piece_file and piece_rank without self, resolved the same way. -/
def Position.strMethod (_self : PositionRec) : Except PyErr String :=
  match nameLookup [("self", PyVal.obj "Position instance")] "piece_file" with
  | .error e => .error e
  | .ok v1 =>
    match nameLookup [("self", PyVal.obj "Position instance")] "piece_rank" with
    | .error e => .error e
    | .ok v2 => .ok (pyFormat v1 ++ pyFormat v2)

/-- A Board row built with no arguments: every column at its declared
default. -/
def Board.blankRow : BoardRec := {}

/-- A Result row built with no arguments: every column at its declared
default. -/
def Result.blankRow : ResultRec := {}

/-- The six FEN-component columns of a Board row, as a plain tuple. -/
def boardFields (b : BoardRec) :
    String × Option Int × Option String × Option String × Int × Int :=
  (b.fen, b.turn, b.castling_xfen, b.ep_square, b.halfmove_clock,
   b.fullmove_number)

/-- Rebuilding a Board row from the tuple of its six FEN-component columns. -/
def boardOfFields
    (t : String × Option Int × Option String × Option String × Int × Int) :
    BoardRec :=
  { fen := t.1, turn := t.2.1, castling_xfen := t.2.2.1,
    ep_square := t.2.2.2.1, halfmove_clock := t.2.2.2.2.1,
    fullmove_number := t.2.2.2.2.2 }

/-- First word (five letters) of the display label PIECE_CHOICES gives a piece
letter: the colour the choice list asserts for that letter. -/
def labelColorWord (c : Char) : String :=
  String.mk (((pieceChoiceLabel c).getD "").data.take 5)

/-! ## Theorems settling the claims -/

/-- Helper: whatever Python values fill the board_data dictionary, the Django
constructor call of from_fen rejects the castling_rights key, the first key
naming no Board column. -/
lemma initFromKwargs_board_data (a b c d e f : PyVal) :
    Board.initFromKwargs
      [("fen", a), ("turn", b), ("castling_rights", c), ("ep_square", d),
       ("fullmove_number", e), ("halfmove_clock", f)] =
      Except.error (PyErr.typeError "castling_rights") := rfl

/-- C1.  The claimed FEN round-trip never happens: already on the canonical
starting position, the one FEN the schema itself declares as a default,
Board.from_fen does not return a Board row at all but raises the TypeError of
the invalid castling_rights keyword argument, the slip between the dictionary
key written in from_fen and the column castling_xfen the model declares. -/
theorem from_fen_roundtrip_broken_at_starting_fen :
    Board.from_fen STARTING_FEN =
      Except.error (PyErr.typeError "castling_rights") := by rfl

/-- C2.  Board.from_fen never successfully constructs a Board row: every input
yields an error, and any input the FEN parser accepts — the starting position
among them — still fails afterwards with the TypeError for the
castling_rights keyword, which names no column of the Board model. -/
theorem from_fen_never_constructs_a_board :
    (∀ s : String, ∃ e : PyErr, Board.from_fen s = Except.error e) ∧
    (∀ s : String, ∀ b : ChessBoard, chessBoardOfFen s = Except.ok b →
      Board.from_fen s = Except.error (PyErr.typeError "castling_rights")) ∧
    Board.from_fen "8/8/8/8/8/8/8/8 w - - 0 1" =
      Except.error (PyErr.typeError "castling_rights") := by
  refine ⟨fun s => ?_, fun s b h => ?_, by rfl⟩
  · unfold Board.from_fen
    cases h : chessBoardOfFen s with
    | error m => exact ⟨PyErr.valueError m, rfl⟩
    | ok b =>
      exact ⟨PyErr.typeError "castling_rights",
        initFromKwargs_board_data _ _ _ _ _ _⟩
  · unfold Board.from_fen
    rw [h]
    exact initFromKwargs_board_data _ _ _ _ _ _

/-- C2 witness: at the concrete FEN of an empty board with all six fields, the
parser succeeds and from_fen still fails with the castling_rights TypeError. -/
theorem from_fen_never_constructs_a_board_witness :
    Board.from_fen "8/8/8/8/8/8/8/8 w - - 0 1" =
      Except.error (PyErr.typeError "castling_rights") :=
  from_fen_never_constructs_a_board.2.2

/-- C3 counterexample: the FEN string of two fields instead of six has a wrong
field count, yet constructing a Board from it does not fail with the
recoverable ParseError — the lenient parser fills the missing fields with
defaults and the construction fails with the constructor TypeError instead. -/
theorem malformed_fen_short_count_is_not_parse_error :
    failsWithParseError "8/8/8/8/8/8/8/8 w" = false ∧
    Board.from_fen "8/8/8/8/8/8/8/8 w" =
      Except.error (PyErr.typeError "castling_rights") := by
  exact ⟨by rfl, by rfl⟩

/-- C3 amended.  A malformed FEN the parser rejects — too many fields, an
invalid piece letter, a rank that does not sum to 8 files, or an out-of-range
side, castling, en-passant or clock field — makes construction fail with the
recoverable ValueError of the FEN codec (the ParseError of the taxonomy),
reported to the caller; a FEN with too few fields, however, is parsed with
defaults for the missing fields and construction then fails with the
TypeError common to every input. -/
theorem malformed_fen_fails_with_parse_error :
    (∀ s : String, ∀ m : String, chessBoardOfFen s = Except.error m →
      Board.from_fen s = Except.error (PyErr.valueError m) ∧
      failsWithParseError s = true) ∧
    failsWithParseError
      "rnbqkbnr/pppppppp/8/8/8/8/PPPPPPPP/RNBXKBNR w KQkq - 0 1" = true ∧
    failsWithParseError
      "rnbqkbnr/pppppppp/7/8/8/8/PPPPPPPP/RNBQKBNR w KQkq - 0 1" = true ∧
    failsWithParseError "8/8/8/8/8/8/8/8 x KQkq - 0 1" = true ∧
    failsWithParseError "8/8/8/8/8/8/8/8 w KQxq - 0 1" = true ∧
    failsWithParseError "8/8/8/8/8/8/8/8 w - z9 0 1" = true ∧
    failsWithParseError "8/8/8/8/8/8/8/8 w - - -1 1" = true ∧
    failsWithParseError "8/8/8/8/8/8/8/8 w - - 0 1 extra" = true := by
  refine ⟨fun s m h => ?_, by rfl, by rfl, by rfl, by rfl, by rfl, by rfl, by rfl⟩
  have hb : Board.from_fen s = Except.error (PyErr.valueError m) := by
    unfold Board.from_fen
    rw [h]
  exact ⟨hb, by unfold failsWithParseError; rw [hb]⟩

/-- C3 witness: the amended theorem applied at a FEN with an out-of-range side
field, discharging the parser hypothesis there. -/
theorem malformed_fen_fails_with_parse_error_witness :
    Board.from_fen "8/8/8/8/8/8/8/8 x KQkq - 0 1" =
      Except.error
        (PyErr.valueError "expected w or b for turn part of fen") ∧
    failsWithParseError "8/8/8/8/8/8/8/8 x KQkq - 0 1" = true :=
  malformed_fen_fails_with_parse_error.1 "8/8/8/8/8/8/8/8 x KQkq - 0 1"
    "expected w or b for turn part of fen" (by rfl)

/-- C4.  The terminal-state vocabulary is fixed: a Result row passes the
choices constraint exactly when its result column is one of the four result
values and its termination column one of the eight termination values, and a
row built with no arguments defaults to In progress and Unterminated. -/
theorem result_vocabulary_fixed :
    Result.RESULT_CHOICES.map Prod.fst =
      ["White wins", "Black wins", "Draw", "In progress"] ∧
    Result.TERMINATION_CHOICES.map Prod.fst =
      ["Abandoned", "Adjudication", "Death", "Emergency", "Normal",
       "Rules infraction", "Time forfeit", "Unterminated"] ∧
    Result.blankRow.result = "In progress" ∧
    Result.blankRow.termination = "Unterminated" ∧
    (∀ r : ResultRec, validResult r = true ↔
      ((r.result = "White wins" ∨ r.result = "Black wins" ∨
        r.result = "Draw" ∨ r.result = "In progress") ∧
       (r.termination = "Abandoned" ∨ r.termination = "Adjudication" ∨
        r.termination = "Death" ∨ r.termination = "Emergency" ∨
        r.termination = "Normal" ∨ r.termination = "Rules infraction" ∨
        r.termination = "Time forfeit" ∨ r.termination = "Unterminated"))) := by
  refine ⟨by rfl, by rfl, by rfl, by rfl, fun r => ?_⟩
  simp [validResult, Result.RESULT_CHOICES, Result.TERMINATION_CHOICES,
    List.contains, List.elem_eq_mem, Result.WHITE_WINS, Result.BLACK_WINS,
    Result.DRAW, Result.IN_PROGRESS, Result.ABANDONED, Result.ADJUDICATION,
    Result.DEATH, Result.EMERGENCY, Result.NORMAL, Result.RULES_INFRACTION,
    Result.TIME_FORFEIT, Result.UNTERMINATED]

/-- C5.  A Move row is exactly its stored tuple: the auto creation timestamp,
the Piece reference, and the two squares round-trip through the tuple both
ways, so the model carries no promotion piece-type and no capture, en-passant,
castling or double-push flag. -/
theorem move_stores_only_piece_and_squares :
    (∀ m : MoveRec, moveOfData (moveData m) = m) ∧
    (∀ t : Nat × Nat × String × String, moveData (moveOfData t) = t) := by
  exact ⟨fun m => rfl, fun t => rfl⟩

/-- C6.  The piece-letter colour conventions contradict each other: every
letter of Board.WHITE_PIECES (the uppercase letters) is labelled Black by
Piece.PIECE_CHOICES and every letter of Board.BLACK_PIECES is labelled White,
and every piece letter of the default starting FEN gets from PIECE_CHOICES
the colour word opposite to the colour the FEN parser gives the letter. -/
theorem piece_letter_colors_swapped :
    Board.WHITE_PIECES.all (fun c => labelColorWord c == "Black") = true ∧
    Board.BLACK_PIECES.all (fun c => labelColorWord c == "White") = true ∧
    Board.WHITE_PIECES.all (fun c => fenLetterIsWhite c) = true ∧
    Board.BLACK_PIECES.all (fun c => !(fenLetterIsWhite c)) = true ∧
    (STARTING_FEN.data.filter (fun c => pieceLetters.contains c.toLower)).all
      (fun c => labelColorWord c ==
        (if fenLetterIsWhite c then "Black" else "White")) = true := by
  exact ⟨by rfl, by rfl, by rfl, by rfl, by rfl⟩

/-- C7.  The draw-claim interface accepts exactly the three claim types: the
choice values are tr, ft and d with the labels Threefold repetition, Fifty
moves and Draw, and a Claim row passes the choices constraint exactly when
its claim_type is one of those three values. -/
theorem claim_types_exactly_three :
    Claim.CLAIM_CHOICES.map Prod.fst =
      [Claim.THREEFOLD_REPETITION, Claim.FIFTY_MOVES, Claim.DRAW] ∧
    Claim.CLAIM_CHOICES.map Prod.snd =
      ["Threefold repetition", "Fifty moves", "Draw"] ∧
    (∀ c : ClaimRec, validClaim c = true ↔
      (c.claim_type = "tr" ∨ c.claim_type = "ft" ∨ c.claim_type = "d")) := by
  refine ⟨by rfl, by rfl, fun c => ?_⟩
  simp [validClaim, Claim.CLAIM_CHOICES, List.contains, List.elem_eq_mem,
    Claim.THREEFOLD_REPETITION, Claim.FIFTY_MOVES, Claim.DRAW]

/-- C8.  Piece.SQUARE_CHOICES is a bijection between square indices and
(uppercased) algebraic square names: every getattr succeeds, the indices are
exactly 0..63 in order, the names are exactly the 64 uppercased square names,
those names are pairwise distinct, and no index exceeds 63. -/
theorem square_choices_bijection :
    Piece.SQUARE_CHOICES.isSome = true ∧
    (Piece.SQUARE_CHOICES.getD []).map Prod.fst = List.range 64 ∧
    (Piece.SQUARE_CHOICES.getD []).map Prod.snd = SQUARE_NAMES.map pyUpper ∧
    (SQUARE_NAMES.map pyUpper).Nodup ∧
    ((Piece.SQUARE_CHOICES.getD []).map Prod.fst).all
      (fun i => decide (i ≤ 63)) = true := by
  exact ⟨by rfl, by rfl, by rfl, by decide, by rfl⟩

/-- C9.  The Board schema mirrors the six FEN components: a row is exactly the
tuple of its fen, turn, castling_xfen, ep_square, halfmove_clock and
fullmove_number columns, and a row built with no arguments defaults to the
canonical starting FEN, halfmove clock 0 and fullmove number 1 with the three
nullable columns null. -/
theorem board_schema_mirrors_fen_components :
    Board.blankRow.fen =
      "rnbqkbnr/pppppppp/8/8/8/8/PPPPPPPP/RNBQKBNR w KQkq - 0 1" ∧
    Board.blankRow.turn = none ∧
    Board.blankRow.castling_xfen = none ∧
    Board.blankRow.ep_square = none ∧
    Board.blankRow.halfmove_clock = 0 ∧
    Board.blankRow.fullmove_number = 1 ∧
    (∀ b : BoardRec, boardOfFields (boardFields b) = b) ∧
    (∀ t : String × Option Int × Option String × Option String × Int × Int,
      boardFields (boardOfFields t) = t) := by
  exact ⟨by rfl, by rfl, by rfl, by rfl, by rfl, by rfl, fun b => rfl,
    fun t => rfl⟩

/-- C10.  Calling str() on a Move or a Position row raises NameError: the
f-strings read from_square / piece_file as bare names, which are bound neither
in the method local scope nor at module level, so name resolution fails at
the first of them on every row. -/
theorem str_methods_raise_name_error :
    (∀ m : MoveRec,
      Move.strMethod m = Except.error (PyErr.nameError "from_square")) ∧
    (∀ p : PositionRec,
      Position.strMethod p = Except.error (PyErr.nameError "piece_file")) := by
  exact ⟨fun m => rfl, fun p => rfl⟩

end Capablanca
